import Mathlib

/-!
Verification development for the Zabbix-Monitoring alert lifecycle core.

Shallow embedding of the alert ingestion pipeline, the interactive action
dispatcher, the authorization service, the state cache and the diagnostic
executor, translated from:
  - src/ai-services/telegram-bot/bot.py
  - src/ai-services/webhook-handler/webhook.py
  - src/ai-services/ansible-executor/api_server.py

External effects (HTTP calls, Redis reachability, subprocess outcomes, wall
clock timestamps) are passed in as explicit parameters; all program logic is
translated directly from the Python source.
-/

namespace ZabbixCore

/-- Python `s.startswith(pre)` modelled on character lists. -/
def pyStartsWith (s pre : String) : Bool := pre.data.isPrefixOf s.data

/-- Python `sub in s` substring containment, modelled on character lists. -/
def pyContains (s sub : String) : Bool := decide (sub.data <:+: s.data)

/-- Python `s.lower()` (ASCII case folding, which is all the repo uses). -/
def pyLower (s : String) : String := ⟨s.data.map Char.toLower⟩

/-- Python `s.upper()` (ASCII case folding, which is all the repo uses). -/
def pyUpper (s : String) : String := ⟨s.data.map Char.toUpper⟩

/-- Python `s.split(sep)` on character lists: splits at every separator,
keeping empty fields, and yields `[[]]` on the empty string. -/
def splitChars (sep : Char) : List Char → List (List Char)
  | [] => [[]]
  | c :: cs =>
    match splitChars sep cs with
    | [] => [[]]
    | h :: t => if c = sep then [] :: h :: t else (c :: h) :: t

/-- Python `s.split(sep)` for single-character separators. -/
def pySplit (s : String) (sep : Char) : List String :=
  (splitChars sep s.data).map String.mk

/-- Inverse of `splitChars`: join character-list fields with a separator. -/
def joinChars (sep : Char) : List (List Char) → List Char
  | [] => []
  | [x] => x
  | x :: xs => x ++ sep :: joinChars sep xs

/-- Join string fields with a single-character separator (Python
`sep.join(fields)`). -/
def pyJoin (sep : Char) (l : List String) : String :=
  ⟨joinChars sep (l.map String.data)⟩

/-! ## Authorization Service (bot.py lines 62-88) -/

/-- bot.py `USER_ROLES`: the static identity table. -/
def USER_ROLES : List (Nat × String) := [(1081490318, "ADMIN")]

/-- bot.py `ROLE_PERMISSIONS`: role → ordered list of permitted actions. -/
def ROLE_PERMISSIONS : List (String × List String) :=
  [("ADMIN", ["fix", "restart", "diag", "ack", "ignore", "rollback"]),
   ("OPERATOR", ["restart", "diag", "ack", "ignore"]),
   ("VIEWER", ["diag", "ack"])]

/-- bot.py `get_user_role`: role lookup defaulting to VIEWER. -/
def get_user_role (user_id : Nat) : String :=
  (USER_ROLES.lookup user_id).getD "VIEWER"

/-- The roles whose permission list contains `action`, in table order
(used to build the denial message in `is_authorized`). -/
def rolesPermitting (action : String) : List String :=
  (ROLE_PERMISSIONS.filter (fun rp => rp.2.contains action)).map Prod.fst

/-- bot.py `is_authorized`: decide whether `user_id` may perform `action`,
returning the (allowed, reason) pair. -/
def is_authorized (user_id : Nat) (action : String) : Bool × String :=
  let role := get_user_role user_id
  let permissions := (ROLE_PERMISSIONS.lookup role).getD []
  if permissions.contains action then
    (true, "Authorized as " ++ role)
  else
    (false, "Permission denied. " ++ action ++ " requires " ++
      String.intercalate ", " (rolesPermitting action) ++ " role.")

/-! ## Interactive Action Dispatcher (bot.py `button_callback`, lines 400-532) -/

/-- The execution work a decoded action token is dispatched to.  Each
constructor names the handler coroutine invoked by `button_callback`. -/
inductive Act where
  | reportButton (data : String)
  | executeServiceRestart (hostname service_name : String)
  | checkServiceStatus (hostname service_name : String)
  | executeHostDiagnostic (hostname : String)
  | handleKillPid (hostname pid : String) (event_id : Option String)
  | handleKillProcess (hostname process_name : String) (event_id : Option String)
  | handleCheckLogs (hostname : String) (event_id : Option String)
  | handleBackToAlert (event_id : String)
  | executeAiAnalysis (event_id : String)
  | executeFix (event_id : Option String)
  | executeDiagnostic (event_id : Option String)
  | executeRestart (event_id : Option String)
  | acknowledgeAlert (event_id : Option String)
  | ignoreAlert (event_id : Option String)
  deriving DecidableEq

/-- Outcome of one `button_callback` invocation before any execution work:
either an authorization denial reply, dispatch to a handler, or a terminal
informational reply. -/
inductive Dispatch where
  | denied (message : String)
  | run (a : Act)
  | reply (message : String)
  deriving DecidableEq

/-- Python truthiness of an optional string (`None` and `''` are falsy). -/
def truthy (o : Option String) : Bool := o.getD "" ≠ ""

/-- bot.py `button_callback` dispatch on the already-split callback data
(`parts = data.split(':')`, `action = parts[0]`). -/
def dispatch (user_id : Nat) (parts : List String) : Dispatch :=
  let action := (parts.get? 0).getD ""
  if action == "restart_service" then
    let hostname := (parts.get? 1).getD "Unknown"
    let service_name := (parts.get? 2).getD "Unknown"
    let auth := is_authorized user_id "restart"
    if !auth.1 then .denied ("🔒 " ++ auth.2)
    else .run (.executeServiceRestart hostname service_name)
  else if action == "check_service" then
    let hostname := (parts.get? 1).getD "Unknown"
    let service_name := (parts.get? 2).getD "Unknown"
    .run (.checkServiceStatus hostname service_name)
  else if action == "diagnostics" then
    let hostname := (parts.get? 1).getD "Unknown"
    .run (.executeHostDiagnostic hostname)
  else if action == "kill_pid" then
    let hostname := (parts.get? 1).getD "Unknown"
    let pid := parts.get? 2
    let event_id := parts.get? 3
    let auth := is_authorized user_id "fix"
    if !auth.1 then .denied ("🔒 " ++ auth.2)
    else if truthy pid then .run (.handleKillPid hostname (pid.getD "") event_id)
    else .reply "❌ Invalid PID"
  else if action == "kill_process" then
    let hostname := (parts.get? 1).getD "Unknown"
    let process_name := (parts.get? 2).getD "Unknown"
    let event_id := parts.get? 3
    let auth := is_authorized user_id "fix"
    if !auth.1 then .denied ("🔒 " ++ auth.2)
    else .run (.handleKillProcess hostname process_name event_id)
  else if action == "check_logs" then
    let hostname := (parts.get? 1).getD "Unknown"
    let event_id := parts.get? 2
    .run (.handleCheckLogs hostname event_id)
  else if action == "back_to_alert" then
    let event_id := parts.get? 1
    if truthy event_id then .run (.handleBackToAlert (event_id.getD ""))
    else .reply "❌ Invalid alert reference"
  else if action == "ai_analysis" then
    let event_id := parts.get? 1
    if truthy event_id then .run (.executeAiAnalysis (event_id.getD ""))
    else .reply "❌ Invalid AI analysis request"
  else
    let event_id := parts.get? 1
    if action == "confirm_fix" then
      let auth := is_authorized user_id "fix"
      if !auth.1 then .denied ("🔒 " ++ auth.2)
      else .run (.executeFix event_id)
    else if action == "diag" then .run (.executeDiagnostic event_id)
    else if action == "restart" then
      let auth := is_authorized user_id "restart"
      if !auth.1 then .denied ("🔒 " ++ auth.2)
      else .run (.executeRestart event_id)
    else if action == "ack" then .run (.acknowledgeAlert event_id)
    else if action == "ignore" then .run (.ignoreAlert event_id)
    else if action == "cancel" then .reply "❌ Action cancelled."
    else .reply ("Unknown action: " ++ action)

/-- bot.py `button_callback`: report buttons are routed on a raw-string
prefix test before the token is split on `:`. -/
def button_callback (user_id : Nat) (data : String) : Dispatch :=
  if pyStartsWith data "report_" || pyStartsWith data "html_" ||
      pyStartsWith data "email_" then
    .run (.reportButton data)
  else
    dispatch user_id (pySplit data ':')

/-! ## Data model and State Cache (webhook.py / bot.py Redis usage) -/

/-- One inline keyboard button: label plus colon-delimited action token. -/
structure Button where
  text : String
  callback_data : String
  deriving DecidableEq

/-- A cached rendered alert: message text plus button layout (the
`message_text`/`buttons` JSON blob both services read and write). -/
structure CachedAlertState where
  message_text : String
  buttons : List (List Button)
  deriving DecidableEq

/-- webhook.py standardized alert fields (the `alert_data` dict built in
`webhook()` from either field-name casing of the inbound payload). -/
structure AlertEvent where
  trigger : String
  host : String
  severity : String
  value : String
  time : String
  description : String
  event_id : String
  deriving DecidableEq

/-- Structured diagnostic result (the `result` payload relayed by the
Ansible REST API, a key/value metrics dict). -/
structure AnsibleData where
  metrics : List (String × String)
  deriving DecidableEq

/-- A Redis value: either a rendered alert state blob
(`original_alert:*` / `acknowledged_alert:*`) or the raw
(alert, diagnostic) pair (`alert_data:*`). -/
inductive CacheVal where
  | alertState (s : CachedAlertState)
  | alertData (alert : AlertEvent) (ansible : Option AnsibleData)
  deriving DecidableEq

/-- The Redis state: entries of (key, ttl, value); `setex` overwrites the
key, so keys are unique. -/
def Cache := List (String × Nat × CacheVal)

instance : DecidableEq Cache := by unfold Cache; infer_instance

/-- Drop every entry stored under `key`. -/
def cacheRemove : Cache → String → Cache
  | [], _ => []
  | e :: es, key => if e.1 == key then cacheRemove es key else e :: cacheRemove es key

/-- Redis SETEX: write `v` under `key` with `ttl`, replacing any previous
entry for that key. -/
def cacheSet (c : Cache) (key : String) (ttl : Nat) (v : CacheVal) : Cache :=
  (key, ttl, v) :: cacheRemove c key

/-- Redis GET. -/
def cacheGet : Cache → String → Option CacheVal
  | [], _ => none
  | e :: es, key => if e.1 == key then some e.2.2 else cacheGet es key

/-- The TTL recorded with a key's entry, if present. -/
def cacheTTL : Cache → String → Option Nat
  | [], _ => none
  | e :: es, key => if e.1 == key then some e.2.1 else cacheTTL es key

/-- Number of entries stored under `key`. -/
def countKey : Cache → String → Nat
  | [], _ => 0
  | e :: es, key => (if e.1 == key then 1 else 0) + countKey es key

/-- Read a cached JSON blob as a rendered alert state:
`data.get('message_text')` / `data.get('buttons', [])` degrade to empty
defaults when the blob has the other shape. -/
def asAlertState : CacheVal → CachedAlertState
  | .alertState s => s
  | .alertData _ _ => ⟨"", []⟩

/-- Read a cached JSON blob as the raw alert dict:
`full_alert_data.get('alert', {})` with per-field defaults
(`trigger` → N/A, `host`/`severity` → Unknown) when the blob has the
other shape. -/
def asAlertEvent : CacheVal → AlertEvent
  | .alertData a _ => a
  | .alertState _ => ⟨"N/A", "Unknown", "Unknown", "N/A", "N/A", "", ""⟩

/-- Read the diagnostic half of a cached `alert_data:*` blob. -/
def asAnsible : CacheVal → Option AnsibleData
  | .alertData _ d => d
  | .alertState _ => none

/-! ## ack / ignore / back_to_alert (bot.py lines 701-899, 1660-1791) -/

/-- Keep only informational buttons: bot.py
`callback_data.startswith(('ai_analysis:', 'diagnostics:'))`. -/
def keep_button (b : Button) : Bool :=
  pyStartsWith b.callback_data "ai_analysis:" ||
  pyStartsWith b.callback_data "diagnostics:"

/-- bot.py button filtering in `acknowledge_alert` / `ignore_alert`: keep
the informational buttons of each row, then drop rows that became empty. -/
def filter_buttons (rows : List (List Button)) : List (List Button) :=
  (rows.map (fun row => row.filter keep_button)).filter (fun r => !r.isEmpty)

/-- The status banner prepended by `acknowledge_alert`. -/
def ack_banner (username ts : String) : String :=
  "✅ **ACKNOWLEDGED**\n_By " ++ username ++ " at " ++ ts ++
  "_\n━━━━━━━━━━━━━━━━━━━━━━━━━━━━\n\n"

/-- The status banner prepended by `ignore_alert`. -/
def ignore_banner (username ts : String) : String :=
  "🔕 **IGNORED**\n_By " ++ username ++ " at " ++ ts ++
  "_\n━━━━━━━━━━━━━━━━━━━━━━━━━━━━\n\n"

/-- Key of the canonical rendered alert written at ingestion. -/
def original_alert_key (event_id : String) : String :=
  "original_alert:" ++ event_id

/-- Key `acknowledge_alert` writes its ACKNOWLEDGED variant under. -/
def ack_cache_key (event_id : String) : String :=
  "acknowledged_alert:" ++ event_id

/-- Key `ignore_alert` writes its IGNORED variant under (bot.py line 873:
the same key as acknowledge, "for consistency"). -/
def ignored_cache_key (event_id : String) : String :=
  "acknowledged_alert:" ++ event_id

/-- Key of the raw (alert, diagnostic) pair written at ingestion. -/
def alert_data_key (event_id : String) : String :=
  "alert_data:" ++ event_id

/-- Result of the Zabbix `event.acknowledge` JSON-RPC call as observed by
`acknowledge_alert`: a truthy response, a falsy/empty response, or an
exception raised by `ZabbixRPC.call`. -/
inductive ZbxOutcome where
  | success
  | emptyResponse
  | raised (msg : String)
  deriving DecidableEq

/-- Observable outcome of one ack/ignore handler invocation: the upstream
Zabbix calls it made (method, event id), the cache afterwards, and the
message/buttons it left displayed. -/
structure ActionResult where
  zabbixCalls : List (String × String)
  cache : Cache
  displayed : String
  displayedButtons : List (List Button)
  deriving DecidableEq

/-- bot.py `acknowledge_alert` (lines 701-809): call Zabbix
`event.acknowledge`, then on a truthy response prepend the ACKNOWLEDGED
banner to the cached original message, keep only informational buttons,
and cache the variant under `acknowledged_alert:<event id>` (TTL 3600). -/
def acknowledge_alert (redisUp : Bool) (zbx : ZbxOutcome)
    (event_id username ts : String) (c : Cache) : ActionResult :=
  let calls := [("event.acknowledge", event_id)]
  match zbx with
  | .raised msg =>
    { zabbixCalls := calls, cache := c,
      displayed := "❌ Acknowledge Failed\n\nEvent ID: " ++ event_id ++
        "\nError: " ++ msg ++ "\n\nPlease check Zabbix connection",
      displayedButtons := [] }
  | .emptyResponse =>
    { zabbixCalls := calls, cache := c,
      displayed := "⚠️ Acknowledge Request Sent\n\nEvent ID: " ++ event_id ++
        "\n\nNote: Response was empty but request succeeded",
      displayedButtons := [] }
  | .success =>
    let orig := if redisUp then cacheGet c (original_alert_key event_id) else none
    let original_message := (orig.map (fun v => (asAlertState v).message_text)).getD ""
    let original_buttons := (orig.map (fun v => (asAlertState v).buttons)).getD []
    let filtered := filter_buttons original_buttons
    if original_message ≠ "" then
      let updated := ack_banner username ts ++ original_message
      let c' := if redisUp then
          cacheSet c (ack_cache_key event_id) 3600 (.alertState ⟨updated, filtered⟩)
        else c
      { zabbixCalls := calls, cache := c', displayed := updated,
        displayedButtons := filtered }
    else
      { zabbixCalls := calls, cache := c,
        displayed := "✅ Alert Acknowledged\n\nEvent ID: " ++ event_id ++
          "\nAcknowledged by: " ++ username ++ "\n\nStatus updated in Zabbix",
        displayedButtons := [] }

/-- bot.py `ignore_alert` (lines 811-899): no upstream call at all; prepend
the IGNORED banner to the cached original message, keep only informational
buttons, and cache the variant under the same `acknowledged_alert:` key. -/
def ignore_alert (redisUp : Bool) (event_id username ts : String)
    (c : Cache) : ActionResult :=
  let orig := if redisUp then cacheGet c (original_alert_key event_id) else none
  let original_message := (orig.map (fun v => (asAlertState v).message_text)).getD ""
  let original_buttons := (orig.map (fun v => (asAlertState v).buttons)).getD []
  let filtered := filter_buttons original_buttons
  if original_message ≠ "" then
    let updated := ignore_banner username ts ++ original_message
    let c' := if redisUp then
        cacheSet c (ignored_cache_key event_id) 3600 (.alertState ⟨updated, filtered⟩)
      else c
    { zabbixCalls := [], cache := c', displayed := updated,
      displayedButtons := filtered }
  else
    { zabbixCalls := [], cache := c,
      displayed := "🔕 Alert Ignored\n\nEvent ID: " ++ event_id ++
        "\nIgnored by: " ++ username ++ "\n\nThis alert will be suppressed",
      displayedButtons := [] }

/-- The minimal reconstruction text `handle_back_to_alert` builds from the
raw `alert_data:*` cache entry. -/
def reconstructed_text (alert : AlertEvent) (event_id : String) : String :=
  "⚠️ Alert Restored\n\nIssue: " ++ alert.trigger ++
  "\nHost: " ++ alert.host ++
  "\nSeverity: " ++ alert.severity ++
  "\nEvent ID: " ++ event_id ++
  "\n\nOriginal alert format not available. Use buttons below for actions."

/-- The basic action buttons attached to a reconstructed alert. -/
def reconstructed_buttons (alert : AlertEvent) (event_id : String) :
    List (List Button) :=
  [[⟨"🤖 Get AI Analysis", "ai_analysis:" ++ event_id⟩],
   [⟨"🔍 Run Diagnostics", "diagnostics:" ++ alert.host⟩]]

/-- Outcome of `handle_back_to_alert`, one constructor per terminal branch
of the Python handler. -/
inductive BackResult where
  | noRedis
  | ackRestored (text : String) (buttons : List (List Button))
  | originalRestored (text : String) (buttons : List (List Button))
  | reconstructed (text : String) (buttons : List (List Button))
  | expired
  deriving DecidableEq

/-- bot.py `handle_back_to_alert` (lines 1660-1791): restore the
acknowledged/ignored variant first, else the cached original, else a
minimal reconstruction from `alert_data:*`, else the cache-expired reply.
The handler performs no cache writes. -/
def handle_back_to_alert (redisUp : Bool) (c : Cache) (event_id : String) :
    BackResult :=
  if !redisUp then .noRedis
  else
    match cacheGet c (ack_cache_key event_id) with
    | some v => .ackRestored (asAlertState v).message_text (asAlertState v).buttons
    | none =>
      match cacheGet c (original_alert_key event_id) with
      | some v =>
        .originalRestored (asAlertState v).message_text (asAlertState v).buttons
      | none =>
        match cacheGet c (alert_data_key event_id) with
        | some v =>
          .reconstructed (reconstructed_text (asAlertEvent v) event_id)
            (reconstructed_buttons (asAlertEvent v) event_id)
        | none => .expired

/-- One `back_to_alert` interaction as a state transition: the handler only
reads Redis, so the cache component is returned unchanged. -/
def back_step (redisUp : Bool) (event_id : String) (c : Cache) :
    Cache × BackResult :=
  (c, handle_back_to_alert redisUp c event_id)

/-- Iterate `back_to_alert` n+1 times, threading the cache left by each
invocation into the next one. -/
def back_to_alert_iter (redisUp : Bool) (event_id : String) :
    Nat → Cache → Cache × BackResult
  | 0, c => back_step redisUp event_id c
  | n + 1, c => back_to_alert_iter redisUp event_id n (back_step redisUp event_id c).1

/-! ## Diagnostic Executor (api_server.py `AnsibleRunner.run_playbook`,
webhook.py `AnsibleExecutor.run_diagnostics`) -/

/-- Outcome of the `subprocess.run(ansible-playbook ...)` call: a completed
process, `subprocess.TimeoutExpired`, or some other raised exception. -/
inductive SubprocOutcome where
  | completed (returncode : Int) (stdout stderr : String)
  | timedOut
  | raised (msg : String)
  deriving DecidableEq

/-- api_server.py `run_playbook` return value. -/
structure RunResult where
  status : String
  result : List (String × String)
  duration : Nat
  error : Option String
  deriving DecidableEq

/-- api_server.py `AnsibleRunner.run_playbook` (lines 38-160): every branch
returns a structured result; no branch re-raises to the caller.  The wall
clock `duration` and the subprocess outcome are environment inputs. -/
def run_playbook (playbook_exists : Bool) (outcome : SubprocOutcome)
    (playbook_path : String) (duration : Nat) : RunResult :=
  if !playbook_exists then
    { status := "failed", result := [], duration := 0,
      error := some ("Playbook not found: " ++ playbook_path) }
  else
    match outcome with
    | .completed rc stdout stderr =>
      if rc == 0 then
        { status := "success", result := [("stdout", stdout)],
          duration := duration, error := none }
      else
        { status := "failed", result := [("stdout", stdout), ("stderr", stderr)],
          duration := duration,
          error := some ("Playbook failed (exit code " ++ toString rc ++ ")") }
    | .timedOut =>
      { status := "failed", result := [], duration := duration,
        error := some "Playbook execution timeout (5 minutes)" }
    | .raised msg =>
      { status := "failed", result := [], duration := duration,
        error := some msg }

/-- Outcome of the HTTP POST from `AnsibleExecutor.run_diagnostics` to the
executor API: a response with a status code and parsed body,
`requests.exceptions.Timeout`, `requests.exceptions.ConnectionError`, or
another exception. -/
inductive HttpOutcome where
  | response (status_code : Nat) (body : RunResult)
  | timeout
  | connectionError (msg : String)
  | otherError (msg : String)
  deriving DecidableEq

/-- webhook.py `AnsibleExecutor.run_diagnostics` (lines 146-196): any
non-200 response, failed execution status, timeout, connection error or
other exception is logged and mapped to `None`; on success the structured
`result` payload is returned.  Nothing is raised to the caller. -/
def run_diagnostics (o : HttpOutcome) : Option AnsibleData :=
  match o with
  | .response status_code body =>
    if status_code != 200 then none
    else if body.status != "success" then none
    else some ⟨body.result⟩
  | .timeout => none
  | .connectionError _ => none
  | .otherError _ => none

/-! ## Alert Ingestion Pipeline (webhook.py `webhook`, `should_skip_alert`,
`send_telegram_alert`, `GroqAnalyzer.determine_alert_type`) -/

/-- webhook.py `IGNORED_SERVICES`. -/
def IGNORED_SERVICES : List String :=
  ["AppXSvc", "GoogleUpdater", "GoogleUpdaterInternal", "GoogleUpdaterService",
   "edgeupdate", "gupdate", "RemoteRegistry"]

/-- webhook.py `IGNORED_DISK_PATHS`. -/
def IGNORED_DISK_PATHS : List String :=
  ["/etc/hostname", "/etc/hosts", "/etc/resolv.conf", "/etc/localtime",
   "/etc/timezone", "/run/secrets"]

/-- webhook.py `should_skip_alert` (lines 85-101): suppress the alert when a
known-noisy service name occurs (case-insensitively) in the trigger, or a
known-noisy disk path occurs verbatim in the trigger. -/
def should_skip_alert (alert : AlertEvent) : Bool :=
  IGNORED_SERVICES.any
    (fun service => pyContains (pyLower alert.trigger) (pyLower service)) ||
  IGNORED_DISK_PATHS.any (fun path => pyContains alert.trigger path)

/-- webhook.py `GroqAnalyzer.determine_alert_type` (lines 493-506). -/
def determine_alert_type (trigger_name : String) : String :=
  let tu := pyUpper trigger_name
  if pyContains tu "CPU" || pyContains tu "LOAD" then "CPU"
  else if pyContains tu "MEMORY" || pyContains tu "SWAP" || pyContains tu "RAM" then
    "MEMORY"
  else if pyContains tu "DISK" || pyContains tu "SPACE" || pyContains tu "VOLUME" then
    "DISK"
  else if pyContains tu "NETWORK" || pyContains tu "INTERFACE" ||
      pyContains tu "BANDWIDTH" then "NETWORK"
  else if pyContains tu "SERVICE" || pyContains tu "NOT RUNNING" ||
      pyContains tu "IS NOT RUNNING" || pyContains tu "STOPPED" then "SERVICE"
  else "UNKNOWN"

/-- The abbreviated notice sent for a suppressed alert (webhook.py lines
668-672). -/
def simple_message (a : AlertEvent) : String :=
  "⚪ **" ++ a.trigger ++ "**\n" ++
  "🖥️ Host: `" ++ a.host ++ "`\n" ++
  "⏰ Time: " ++ a.time ++ "\n" ++
  "📊 Severity: " ++ a.severity ++ "\n\n" ++
  "_ℹ️ Alert filtered (non-critical service)._"

/-- webhook.py severity emoji mapping (lines 687-694). -/
def severity_emoji (severity : String) : String :=
  if severity == "Disaster" then "🔴"
  else if severity == "High" then "🟠"
  else if severity == "Average" then "🟡"
  else if severity == "Warning" then "🟢"
  else if severity == "Information" then "🔵"
  else "⚪"

/-- The full notification text built for a non-suppressed alert
(webhook.py lines 696-949).  The metadata header and footer are translated
verbatim; the per-metric formatting of the diagnostics section (CPU/memory/
disk/process tables, lines 718-946) is abstracted to a section marker, as
no claim depends on its text.  Reformatting of bare clock times with the
current date depends on the wall clock and is likewise elided. -/
def build_header (a : AlertEvent) (ansible : Option AnsibleData) : String :=
  let header :=
    severity_emoji a.severity ++ " **Vấn đề: " ++ a.trigger ++ "**\n" ++
    "🖥️ Máy chủ: `" ++ a.host ++ "`\n" ++
    "⏰ Thời gian: " ++ a.time ++ "\n" ++
    "📊 Mức độ: " ++ a.severity ++
    (if a.event_id ≠ "" then " | ID: `" ++ a.event_id ++ "`" else "") ++ "\n\n"
  let header :=
    match ansible with
    | some _ => header ++ "**📈 Thông Số Hệ Thống:**\n\n"
    | none => header
  header ++ "_💡 Nhấn 'Phân Tích AI' bên dưới để nhận khuyến nghị chi tiết._"

/-- webhook.py `send_telegram_alert` button construction (lines 986-1026):
optional AI analysis button, then service-specific restart/check buttons or
a generic diagnostics button, then the Acknowledge/Ignore row. -/
def build_buttons (alert : AlertEvent) (enable_ai_button : Bool) :
    List (List Button) :=
  let hostname := alert.host
  let trigger_name := alert.trigger
  let event_id := alert.event_id
  let alert_type := determine_alert_type trigger_name
  let aiRow : List (List Button) :=
    if enable_ai_button && event_id ≠ "" then
      [[⟨"🤖 Get AI Analysis", "ai_analysis:" ++ event_id⟩]]
    else []
  let actionRows : List (List Button) :=
    if alert_type == "SERVICE" then
      let service_name :=
        if pyContains trigger_name "\"" then
          ((pySplit trigger_name '"').get? 1).getD "Unknown"
        else "Unknown"
      [[⟨"🔄 Restart Service",
         "restart_service:" ++ (hostname ++ (":" ++ service_name))⟩],
       [⟨"📊 Check Status",
         "check_service:" ++ (hostname ++ (":" ++ service_name))⟩]]
    else
      [[⟨"🔍 Run Diagnostics", "diagnostics:" ++ hostname⟩]]
  let commonRow : List (List Button) :=
    [[⟨"✅ Acknowledge", "ack:" ++ event_id⟩,
      ⟨"🔕 Ignore", "ignore:" ++ event_id⟩]]
  aiRow ++ actionRows ++ commonRow

/-- Observable outcome of one `send_telegram_alert` call: the message and
keyboard handed to the notification channel, and the cache afterwards. -/
structure SendOutcome where
  message : String
  keyboard : List (List Button)
  cache : Cache
  deriving DecidableEq

/-- webhook.py `send_telegram_alert` (lines 974-1064): build the keyboard,
POST to Telegram, and — only when the send returned HTTP 200, Redis is up
and the alert carries a non-empty event id — cache the rendered
(message, buttons) pair as `original_alert:<event id>` with TTL 3600. -/
def send_telegram_alert (redisUp sendOk : Bool) (message : String)
    (alert_data : Option AlertEvent) (enable_ai_button : Bool) (c : Cache) :
    SendOutcome :=
  match alert_data with
  | none => { message := message, keyboard := [], cache := c }
  | some alert =>
    let buttons := build_buttons alert enable_ai_button
    if sendOk then
      let c' :=
        if redisUp && alert.event_id ≠ "" then
          cacheSet c (original_alert_key alert.event_id) 3600
            (.alertState ⟨message, buttons⟩)
        else c
      { message := message, keyboard := buttons, cache := c' }
    else
      { message := message, keyboard := buttons, cache := c }

/-- Observable outcome of one `/webhook` request. -/
structure WebhookResult where
  body : String
  code : Nat
  diagnosticsRan : Bool
  sent : SendOutcome
  cache : Cache
  deriving DecidableEq

/-- webhook.py `webhook` (lines 644-971): suppression filter first (the
suppressed path sends the abbreviated notice with `enable_ai_button=False`
and stops with HTTP 200); otherwise run diagnostics, build the full
message, cache the raw (alert, diagnostic) pair under `alert_data:<event
id>` (TTL 3600) when Redis is up, and send with the AI button enabled. -/
def webhook_handler (redisUp sendOk : Bool) (ansibleApi : HttpOutcome)
    (alert_data : AlertEvent) (c : Cache) : WebhookResult :=
  if should_skip_alert alert_data then
    let s := send_telegram_alert redisUp sendOk (simple_message alert_data)
      (some alert_data) false c
    { body := "Alert filtered", code := 200, diagnosticsRan := false,
      sent := s, cache := s.cache }
  else
    let ansible := run_diagnostics ansibleApi
    let header := build_header alert_data ansible
    let c1 :=
      if redisUp then
        cacheSet c (alert_data_key alert_data.event_id) 3600
          (.alertData alert_data ansible)
      else c
    let s := send_telegram_alert redisUp sendOk header (some alert_data) true c1
    { body := "Alert sent (AI on-demand)", code := 200, diagnosticsRan := true,
      sent := s, cache := s.cache }

/-! ## AI-analysis follow-up buttons (bot.py `execute_ai_analysis`,
lines 1892-1979) -/

/-- One above-threshold process extracted from the diagnostic `top` output
(the regex extraction and the >5% CPU filter of lines 1895-1919 happen
upstream; this is its parsed result). -/
structure ProcInfo where
  pid : String
  user : String
  cpu_label : String
  command : String
  deriving DecidableEq

/-- bot.py line 1934: first whitespace-separated word of the command, or
"unknown" for an empty command. -/
def proc_name_of (command : String) : String :=
  if command ≠ "" then ((pySplit command ' ').get? 0).getD "unknown"
  else "unknown"

/-- bot.py `execute_ai_analysis` button construction (lines 1892-1977):
per-process kill buttons when top processes were found, else a generic
kill-stress button for CPU alerts; a restart-service button when a service
keyword occurs; always Check Logs and Back to Alert.  The standardized
alert dict has no `service_name` key, so
`alert_data.get('service_name', 'unknown')` is the constant "unknown". -/
def ai_action_buttons (hostname event_id alert_name analysis : String)
    (top_processes : List ProcInfo) : List (List Button) :=
  let an := pyLower alert_name
  let al := pyLower analysis
  let killRows : List (List Button) :=
    if !top_processes.isEmpty then
      [⟨"⚡ Kill Process (select below):", "noop"⟩] ::
      top_processes.map (fun p =>
        [⟨"🔥 " ++ p.cpu_label ++ "% CPU - " ++ proc_name_of p.command ++
            " (PID " ++ p.pid ++ ")",
          "kill_pid:" ++ (hostname ++ (":" ++ (p.pid ++ (":" ++ event_id))))⟩])
    else if pyContains an "cpu" || pyContains an "load" || pyContains al "cpu" then
      [[⟨"⚡ Kill All Stress Processes",
         "kill_process:" ++ (hostname ++ (":" ++ ("stress:" ++ event_id)))⟩]]
    else []
  let serviceRows : List (List Button) :=
    if pyContains an "service" || pyContains al "service" then
      let service_name := "unknown"
      [[⟨"🔄 Restart Service",
         "restart_service:" ++ (hostname ++ (":" ++ (service_name ++ (":" ++ event_id))))⟩]]
    else []
  killRows ++ serviceRows ++
    [[⟨"📋 Check Logs", "check_logs:" ++ (hostname ++ (":" ++ event_id))⟩]] ++
    [[⟨"↩️ Back to Alert", "back_to_alert:" ++ event_id⟩]]

/-! ## Sequences of ack / ignore interactions -/

/-- One successful operator action on an alert: the verbs that write a
banner variant into the cache. -/
inductive OpAction where
  | ack (username ts : String)
  | ignore (username ts : String)
  deriving DecidableEq

/-- The cache left by one successful ack/ignore handler invocation. -/
def apply_action (redisUp : Bool) (event_id : String) (c : Cache) :
    OpAction → Cache
  | .ack u t => (acknowledge_alert redisUp .success event_id u t c).cache
  | .ignore u t => (ignore_alert redisUp event_id u t c).cache

/-- The banner-variant message text a given action caches, built from the
original rendered message. -/
def variant_message (st : CachedAlertState) : OpAction → String
  | .ack u t => ack_banner u t ++ st.message_text
  | .ignore u t => ignore_banner u t ++ st.message_text

/-! ## General lemmas about the embedding -/

theorem String_mk_data (s : String) : String.mk s.data = s := by
  cases s; rfl

theorem String_eq_of_data_eq {s t : String} (h : s.data = t.data) : s = t := by
  cases s; cases t; exact congrArg String.mk h

theorem pyStartsWith_of_append (a b : String) :
    pyStartsWith (a ++ b) a = true := by
  unfold pyStartsWith
  rw [String.data_append, List.isPrefixOf_iff_prefix]
  exact List.prefix_append a.data b.data

theorem pyStartsWith_append_false (a b p : String)
    (h1 : ¬ p.data <+: a.data) (h2 : ¬ a.data <+: p.data) :
    pyStartsWith (a ++ b) p = false := by
  unfold pyStartsWith
  rw [String.data_append]
  cases hb : List.isPrefixOf p.data (a.data ++ b.data) with
  | false => rfl
  | true =>
    rw [List.isPrefixOf_iff_prefix] at hb
    rcases List.prefix_or_prefix_of_prefix hb (List.prefix_append a.data b.data)
      with hc | hc
    · exact absurd hc h1
    · exact absurd hc h2

theorem pyStartsWith_disjoint (s p q : String)
    (hp : pyStartsWith s p = true)
    (h1 : ¬ q.data <+: p.data) (h2 : ¬ p.data <+: q.data) :
    pyStartsWith s q = false := by
  unfold pyStartsWith at hp ⊢
  rw [List.isPrefixOf_iff_prefix] at hp
  cases hb : List.isPrefixOf q.data s.data with
  | false => rfl
  | true =>
    rw [List.isPrefixOf_iff_prefix] at hb
    rcases List.prefix_or_prefix_of_prefix hb hp with hc | hc
    · exact absurd hc h1
    · exact absurd hc h2

theorem cacheGet_set_self (c : Cache) (k : String) (ttl : Nat) (v : CacheVal) :
    cacheGet (cacheSet c k ttl v) k = some v := by
  simp [cacheGet, cacheSet]

theorem cacheTTL_set_self (c : Cache) (k : String) (ttl : Nat) (v : CacheVal) :
    cacheTTL (cacheSet c k ttl v) k = some ttl := by
  simp [cacheTTL, cacheSet]

theorem cacheGet_remove_ne (c : Cache) (k k' : String) (h : k ≠ k') :
    cacheGet (cacheRemove c k') k = cacheGet c k := by
  induction c with
  | nil => rfl
  | cons e es ih =>
    by_cases hk' : e.1 = k'
    · have hk : (e.1 == k) = false := by simp [hk', Ne.symm h]
      simp [cacheRemove, hk', cacheGet, hk, ih, Ne.symm h]
    · simp only [cacheRemove, beq_iff_eq, hk', if_false, cacheGet, ih]

theorem cacheGet_set_ne (c : Cache) (k k' : String) (ttl : Nat) (v : CacheVal)
    (h : k ≠ k') : cacheGet (cacheSet c k' ttl v) k = cacheGet c k := by
  have hhead : ((k', ttl, v).1 == k) = false := by simp [Ne.symm h]
  simp only [cacheSet, cacheGet, hhead]
  exact cacheGet_remove_ne c k k' h

theorem countKey_remove_self (c : Cache) (k : String) :
    countKey (cacheRemove c k) k = 0 := by
  induction c with
  | nil => rfl
  | cons e es ih =>
    by_cases hk : e.1 = k
    · simp [cacheRemove, hk, ih]
    · simp [cacheRemove, hk, countKey, ih]

theorem cacheSet_count_one (c : Cache) (k : String) (ttl : Nat) (v : CacheVal) :
    countKey (cacheSet c k ttl v) k = 1 := by
  simp [cacheSet, countKey, countKey_remove_self]

theorem ack_key_ne_original_key (eid : String) :
    ack_cache_key eid ≠ original_alert_key eid := by
  intro h
  have := congrArg String.data h
  simp [ack_cache_key, original_alert_key, String.data_append] at this

theorem alert_data_key_ne_original_key (eid : String) :
    alert_data_key eid ≠ original_alert_key eid := by
  intro h
  have := congrArg String.data h
  simp [alert_data_key, original_alert_key, String.data_append] at this

theorem splitChars_ne_nil (sep : Char) (l : List Char) :
    splitChars sep l ≠ [] := by
  cases l with
  | nil => simp [splitChars]
  | cons c cs =>
    simp only [splitChars]
    cases splitChars sep cs with
    | nil => simp
    | cons h t =>
      by_cases hc : c = sep <;> simp [hc]

theorem splitChars_no_sep (sep : Char) (l : List Char) (h : sep ∉ l) :
    splitChars sep l = [l] := by
  induction l with
  | nil => rfl
  | cons c cs ih =>
    have hc : c ≠ sep := fun hc => h (hc ▸ List.mem_cons_self c cs)
    have hcs : sep ∉ cs := fun hm => h (List.mem_cons_of_mem c hm)
    simp [splitChars, ih hcs, hc]

theorem splitChars_append_sep (sep : Char) (a rest : List Char) (h : sep ∉ a) :
    splitChars sep (a ++ sep :: rest) = a :: splitChars sep rest := by
  induction a with
  | nil =>
    rcases List.exists_cons_of_ne_nil (splitChars_ne_nil sep rest) with ⟨x, t, hxt⟩
    simp [splitChars, hxt]
  | cons c cs ih =>
    have hc : c ≠ sep := fun hc => h (hc ▸ List.mem_cons_self c cs)
    have hcs : sep ∉ cs := fun hm => h (List.mem_cons_of_mem c hm)
    have hrec := ih hcs
    have hrec' : splitChars sep (List.append cs (sep :: rest)) =
        cs :: splitChars sep rest := hrec
    simp only [List.cons_append, splitChars, hrec, hrec']
    simp [hc]

theorem splitChars_joinChars (sep : Char) (parts : List (List Char))
    (hne : parts ≠ []) (h : ∀ p ∈ parts, sep ∉ p) :
    splitChars sep (joinChars sep parts) = parts := by
  induction parts with
  | nil => exact absurd rfl hne
  | cons p ps ih =>
    cases ps with
    | nil =>
      simp only [joinChars]
      exact splitChars_no_sep sep p (h p (List.mem_cons_self p []))
    | cons q qs =>
      have hp : sep ∉ p := h p (List.mem_cons_self p (q :: qs))
      have hrest : ∀ r ∈ q :: qs, sep ∉ r := fun r hr =>
        h r (List.mem_cons_of_mem p hr)
      simp only [joinChars, splitChars_append_sep sep p _ hp]
      rw [ih (by simp) hrest]

theorem pySplit_pyJoin (sep : Char) (parts : List String)
    (hne : parts ≠ []) (h : ∀ p ∈ parts, sep ∉ p.data) :
    pySplit (pyJoin sep parts) sep = parts := by
  unfold pySplit pyJoin
  rw [splitChars_joinChars sep (parts.map String.data)
    (by simpa using hne)
    (by intro p hp
        rcases List.mem_map.mp hp with ⟨s, hs, rfl⟩
        exact h s hs)]
  have hid : String.mk ∘ String.data = id := funext String_mk_data
  rw [List.map_map, hid, List.map_id]

/-! ## Claim C8 — authorization is pure, absent users default to VIEWER -/

/-- Claim C8: `is_authorized` is a pure deterministic function — its result
depends only on the caller's role (hence repeated calls with the same
(userID, verb) agree, and the shallow embedding carries no state or I/O at
all) — every userID absent from the identity table is mapped to VIEWER
before the decision, and VIEWER's permitted-verb set is the smallest
(a strict subset of both other roles' sets). -/
theorem is_authorized_pure_viewer_default :
    (∀ u₁ u₂ a, get_user_role u₁ = get_user_role u₂ →
      is_authorized u₁ a = is_authorized u₂ a) ∧
    (∀ u, USER_ROLES.lookup u = none → get_user_role u = "VIEWER") ∧
    ((ROLE_PERMISSIONS.lookup "VIEWER").getD [] ⊆
        (ROLE_PERMISSIONS.lookup "OPERATOR").getD [] ∧
      (ROLE_PERMISSIONS.lookup "VIEWER").getD [] ⊆
        (ROLE_PERMISSIONS.lookup "ADMIN").getD [] ∧
      ((ROLE_PERMISSIONS.lookup "VIEWER").getD []).length <
        ((ROLE_PERMISSIONS.lookup "OPERATOR").getD []).length ∧
      ((ROLE_PERMISSIONS.lookup "VIEWER").getD []).length <
        ((ROLE_PERMISSIONS.lookup "ADMIN").getD []).length) := by
  refine ⟨?_, ?_, ?_⟩
  · intro u₁ u₂ a h
    unfold is_authorized
    rw [h]
  · intro u h
    unfold get_user_role
    rw [h]
    rfl
  · refine ⟨?_, ?_, by decide, by decide⟩ <;> decide

/-- Witness for C8 at concrete inputs: user ids 42 and 967 are both absent
from the identity table, so they share the VIEWER role and identical
authorization results. -/
theorem is_authorized_pure_viewer_default_witness :
    is_authorized 42 "fix" = is_authorized 967 "fix" ∧
    get_user_role 42 = "VIEWER" :=
  ⟨is_authorized_pure_viewer_default.1 42 967 "fix" (by decide),
   is_authorized_pure_viewer_default.2.1 42 (by decide)⟩

/-! ## Claim C1 — the (role, verb) check does NOT guard every verb -/

/-- Claim C1 counterexample: the claim says every verb — including
`ignore` — is authorized before any execution work.  In the code a caller
whose role does not permit `ignore` (user 999999999 defaults to VIEWER,
whose permission list lacks `ignore`) is nevertheless dispatched straight
to the `ignore_alert` handler, which performs upstream work and cache
mutation; no denial reply is produced. -/
theorem button_callback_ignore_skips_authorization :
    (is_authorized 999999999 "ignore").1 = false ∧
    button_callback 999999999 "ignore:4821" =
      .run (.ignoreAlert (some "4821")) := by
  exact ⟨by decide, by decide⟩

/-- Claim C1 amended: the authorization check (with denial naming the
required role and no further work) guards exactly the verbs
`restart_service` (permission `restart`), `kill_pid`/`kill_process`/
`confirm_fix` (permission `fix`) and `restart` (permission `restart`);
the verbs `check_service`, `diagnostics`, `check_logs`, `back_to_alert`,
`ai_analysis`, `ack` and `ignore` are dispatched to their handlers with no
authorization check at all, for every caller. -/
theorem dispatch_authorization_coverage :
    (∀ uid parts, parts[0]? = some "restart_service" →
      (is_authorized uid "restart").1 = false →
      dispatch uid parts = .denied ("🔒 " ++ (is_authorized uid "restart").2)) ∧
    (∀ uid parts, parts[0]? = some "kill_pid" →
      (is_authorized uid "fix").1 = false →
      dispatch uid parts = .denied ("🔒 " ++ (is_authorized uid "fix").2)) ∧
    (∀ uid parts, parts[0]? = some "kill_process" →
      (is_authorized uid "fix").1 = false →
      dispatch uid parts = .denied ("🔒 " ++ (is_authorized uid "fix").2)) ∧
    (∀ uid parts, parts[0]? = some "confirm_fix" →
      (is_authorized uid "fix").1 = false →
      dispatch uid parts = .denied ("🔒 " ++ (is_authorized uid "fix").2)) ∧
    (∀ uid parts, parts[0]? = some "restart" →
      (is_authorized uid "restart").1 = false →
      dispatch uid parts = .denied ("🔒 " ++ (is_authorized uid "restart").2)) ∧
    (∀ uid host svc, dispatch uid ["check_service", host, svc] =
      .run (.checkServiceStatus host svc)) ∧
    (∀ uid host, dispatch uid ["diagnostics", host] =
      .run (.executeHostDiagnostic host)) ∧
    (∀ uid host eid, dispatch uid ["check_logs", host, eid] =
      .run (.handleCheckLogs host (some eid))) ∧
    (∀ uid eid, eid ≠ "" → dispatch uid ["back_to_alert", eid] =
      .run (.handleBackToAlert eid)) ∧
    (∀ uid eid, eid ≠ "" → dispatch uid ["ai_analysis", eid] =
      .run (.executeAiAnalysis eid)) ∧
    (∀ uid eid, dispatch uid ["ack", eid] = .run (.acknowledgeAlert (some eid))) ∧
    (∀ uid eid, dispatch uid ["ignore", eid] = .run (.ignoreAlert (some eid))) := by
  refine ⟨?_, ?_, ?_, ?_, ?_, ?_, ?_, ?_, ?_, ?_, ?_, ?_⟩
  · intro uid parts h hauth
    simp [dispatch, h, hauth]
  · intro uid parts h hauth
    simp [dispatch, h, hauth]
  · intro uid parts h hauth
    simp [dispatch, h, hauth]
  · intro uid parts h hauth
    simp [dispatch, h, hauth]
  · intro uid parts h hauth
    simp [dispatch, h, hauth]
  · intro uid host svc
    simp [dispatch]
  · intro uid host
    simp [dispatch]
  · intro uid host eid
    simp [dispatch]
  · intro uid eid h
    simp [dispatch, truthy, h]
  · intro uid eid h
    simp [dispatch, truthy, h]
  · intro uid eid
    simp [dispatch]
  · intro uid eid
    simp [dispatch]

/-- Witness for the amended C1 at concrete inputs: a VIEWER caller is
denied `restart_service` and `confirm_fix`, while `check_service` and
`ack` are dispatched for the same caller without any check. -/
theorem dispatch_authorization_coverage_witness :
    dispatch 555 ["restart_service", "web01", "nginx"] =
      .denied ("🔒 " ++ (is_authorized 555 "restart").2) ∧
    dispatch 555 ["confirm_fix", "77"] =
      .denied ("🔒 " ++ (is_authorized 555 "fix").2) ∧
    dispatch 555 ["check_service", "web01", "nginx"] =
      .run (.checkServiceStatus "web01" "nginx") ∧
    dispatch 555 ["ack", "77"] = .run (.acknowledgeAlert (some "77")) :=
  ⟨dispatch_authorization_coverage.1 555 ["restart_service", "web01", "nginx"]
      (by decide) (by decide),
   dispatch_authorization_coverage.2.2.2.1 555 ["confirm_fix", "77"]
      (by decide) (by decide),
   dispatch_authorization_coverage.2.2.2.2.2.1 555 "web01" "nginx",
   dispatch_authorization_coverage.2.2.2.2.2.2.2.2.2.2.1 555 "77"⟩

/-! ## Claim C2 — only ack calls the upstream acknowledge operation -/

/-- Claim C2 counterexample: the claim says both `ack` and `ignore` call
the upstream `event.acknowledge` operation.  `ignore_alert` makes no
upstream Zabbix call at all, shown here at a concrete invocation. -/
theorem ignore_alert_makes_no_zabbix_call :
    (ignore_alert true "123" "operator" "2025-01-01 10:00:00" []).zabbixCalls
        = [] ∧
    ("event.acknowledge", "123") ∉
      (ignore_alert true "123" "operator" "2025-01-01 10:00:00" []).zabbixCalls := by
  exact ⟨by decide, by decide⟩

/-- Claim C2 amended: the `ack` verb calls the upstream
`event.acknowledge` operation exactly once — the call is issued before the
banner message is built (every branch of the handler, including the ones
that never build a banner, records it) — while the `ignore` verb performs
no upstream acknowledge call in any circumstance. -/
theorem ack_calls_acknowledge_ignore_does_not :
    (∀ redisUp zbx eid u ts c,
      (acknowledge_alert redisUp zbx eid u ts c).zabbixCalls =
        [("event.acknowledge", eid)]) ∧
    (∀ redisUp eid u ts c,
      (ignore_alert redisUp eid u ts c).zabbixCalls = []) := by
  constructor
  · intro redisUp zbx eid u ts c
    cases zbx with
    | raised m => rfl
    | emptyResponse => rfl
    | success =>
      simp only [acknowledge_alert]
      repeat' split
      all_goals rfl
  · intro redisUp eid u ts c
    simp only [ignore_alert]
    repeat' split
    all_goals rfl

/-! ## Shared lemmas for the ack / ignore / back_to_alert claims -/

theorem pyStartsWith_of_data_prefix (s p : String) (h : p.data <+: s.data) :
    pyStartsWith s p = true := by
  unfold pyStartsWith
  rw [List.isPrefixOf_iff_prefix]
  exact h

theorem data_prefix_append_left (p a b : String) (h : p.data <+: a.data) :
    p.data <+: (a ++ b).data := by
  rw [String.data_append]
  exact h.trans (List.prefix_append _ _)

theorem back_iter_eq (redisUp : Bool) (eid : String) (n : Nat) (c : Cache) :
    back_to_alert_iter redisUp eid n c =
      (c, handle_back_to_alert redisUp c eid) := by
  induction n with
  | zero => rfl
  | succ n ih => simpa [back_to_alert_iter, back_step] using ih

theorem acknowledge_alert_success_eq (eid u ts : String) (c : Cache)
    (st : CachedAlertState)
    (h : cacheGet c (original_alert_key eid) = some (.alertState st))
    (hm : st.message_text ≠ "") :
    acknowledge_alert true .success eid u ts c =
      { zabbixCalls := [("event.acknowledge", eid)],
        cache := cacheSet c (ack_cache_key eid) 3600
          (.alertState ⟨ack_banner u ts ++ st.message_text,
            filter_buttons st.buttons⟩),
        displayed := ack_banner u ts ++ st.message_text,
        displayedButtons := filter_buttons st.buttons } := by
  simp [acknowledge_alert, h, asAlertState, hm]

theorem ignore_alert_eq (eid u ts : String) (c : Cache)
    (st : CachedAlertState)
    (h : cacheGet c (original_alert_key eid) = some (.alertState st))
    (hm : st.message_text ≠ "") :
    ignore_alert true eid u ts c =
      { zabbixCalls := [],
        cache := cacheSet c (ignored_cache_key eid) 3600
          (.alertState ⟨ignore_banner u ts ++ st.message_text,
            filter_buttons st.buttons⟩),
        displayed := ignore_banner u ts ++ st.message_text,
        displayedButtons := filter_buttons st.buttons } := by
  simp [ignore_alert, h, asAlertState, hm]

theorem keep_button_excludes_ack_ignore (b : Button)
    (hk : keep_button b = true) :
    (pyStartsWith b.callback_data "ai_analysis:" = true ∨
      pyStartsWith b.callback_data "diagnostics:" = true) ∧
    pyStartsWith b.callback_data "ack:" = false ∧
    pyStartsWith b.callback_data "ignore:" = false := by
  simp only [keep_button, Bool.or_eq_true] at hk
  rcases hk with hx | hx
  · exact ⟨Or.inl hx,
      pyStartsWith_disjoint _ _ _ hx (by decide) (by decide),
      pyStartsWith_disjoint _ _ _ hx (by decide) (by decide)⟩
  · exact ⟨Or.inr hx,
      pyStartsWith_disjoint _ _ _ hx (by decide) (by decide),
      pyStartsWith_disjoint _ _ _ hx (by decide) (by decide)⟩

theorem mem_filter_buttons_keep {rows : List (List Button)} {row : List Button}
    {b : Button} (hrow : row ∈ filter_buttons rows) (hb : b ∈ row) :
    keep_button b = true := by
  unfold filter_buttons at hrow
  have hrow' := List.mem_of_mem_filter hrow
  rcases List.mem_map.mp hrow' with ⟨row₀, _, rfl⟩
  exact List.of_mem_filter hb

theorem apply_action_cache_eq (eid : String) (st : CachedAlertState)
    (a : OpAction) (c : Cache)
    (h : cacheGet c (original_alert_key eid) = some (.alertState st))
    (hm : st.message_text ≠ "") :
    apply_action true eid c a =
      cacheSet c (ack_cache_key eid) 3600
        (.alertState ⟨variant_message st a, filter_buttons st.buttons⟩) := by
  cases a with
  | ack u t =>
    simp [apply_action, acknowledge_alert_success_eq eid u t c st h hm,
      variant_message]
  | ignore u t =>
    simp [apply_action, ignore_alert_eq eid u t c st h hm, variant_message,
      ignored_cache_key, ack_cache_key]

theorem apply_action_preserves_original (eid : String) (st : CachedAlertState)
    (a : OpAction) (c : Cache)
    (h : cacheGet c (original_alert_key eid) = some (.alertState st))
    (hm : st.message_text ≠ "") :
    cacheGet (apply_action true eid c a) (original_alert_key eid) =
      some (.alertState st) := by
  rw [apply_action_cache_eq eid st a c h hm,
    cacheGet_set_ne _ _ _ _ _ (Ne.symm (ack_key_ne_original_key eid))]
  exact h

theorem foldl_actions_back_restores (eid : String) (st : CachedAlertState)
    (acts : List OpAction) (a_last : OpAction) (c : Cache)
    (h : cacheGet c (original_alert_key eid) = some (.alertState st))
    (hlast : acts.getLast? = some a_last)
    (hm : st.message_text ≠ "") :
    handle_back_to_alert true (acts.foldl (apply_action true eid) c) eid =
      .ackRestored (variant_message st a_last) (filter_buttons st.buttons) := by
  induction acts generalizing c a_last with
  | nil => cases hlast
  | cons a as ih =>
    cases as with
    | nil =>
      have ha : a = a_last := by simpa using hlast
      subst ha
      simp only [List.foldl]
      rw [apply_action_cache_eq eid st a c h hm]
      simp [handle_back_to_alert, cacheGet_set_self, asAlertState]
    | cons b bs =>
      have hlast' : (b :: bs).getLast? = some a_last := by
        simpa [List.getLast?_cons_cons] using hlast
      have h' := apply_action_preserves_original eid st a c h hm
      simpa [List.foldl] using ih a_last (apply_action true eid c a) h' hlast'

/-! ## Claim C4 — back_to_alert restore precedence -/

/-- Claim C4: for every `back_to_alert` action, the restored display
follows the precedence acknowledged/ignored variant → cached original →
minimal reconstruction from the (alert, diagnostic) pair → explicit
cache-expired reply, each branch taken exactly when all earlier caches
miss. -/
theorem back_to_alert_precedence (c : Cache) (eid : String) :
    (∀ v, cacheGet c (ack_cache_key eid) = some v →
      handle_back_to_alert true c eid =
        .ackRestored (asAlertState v).message_text (asAlertState v).buttons) ∧
    (∀ v, cacheGet c (ack_cache_key eid) = none →
      cacheGet c (original_alert_key eid) = some v →
      handle_back_to_alert true c eid =
        .originalRestored (asAlertState v).message_text (asAlertState v).buttons) ∧
    (∀ v, cacheGet c (ack_cache_key eid) = none →
      cacheGet c (original_alert_key eid) = none →
      cacheGet c (alert_data_key eid) = some v →
      handle_back_to_alert true c eid =
        .reconstructed (reconstructed_text (asAlertEvent v) eid)
          (reconstructed_buttons (asAlertEvent v) eid)) ∧
    (cacheGet c (ack_cache_key eid) = none →
      cacheGet c (original_alert_key eid) = none →
      cacheGet c (alert_data_key eid) = none →
      handle_back_to_alert true c eid = .expired) := by
  refine ⟨?_, ?_, ?_, ?_⟩
  · intro v hv
    simp [handle_back_to_alert, hv]
  · intro v h1 h2
    simp [handle_back_to_alert, h1, h2]
  · intro v h1 h2 h3
    simp [handle_back_to_alert, h1, h2, h3]
  · intro h1 h2 h3
    simp [handle_back_to_alert, h1, h2, h3]

/-- Witness for C4: all four precedence branches exercised on concrete
caches for alert id 7. -/
theorem back_to_alert_precedence_witness :
    handle_back_to_alert true
        [("acknowledged_alert:7", 3600, .alertState ⟨"ackmsg", []⟩),
         ("original_alert:7", 3600, .alertState ⟨"origmsg", []⟩)] "7" =
      .ackRestored "ackmsg" [] ∧
    handle_back_to_alert true
        [("original_alert:7", 3600, .alertState ⟨"origmsg", []⟩)] "7" =
      .originalRestored "origmsg" [] ∧
    handle_back_to_alert true
        [("alert_data:7", 3600,
          .alertData ⟨"t", "h", "High", "v", "now", "", "7"⟩ none)] "7" =
      .reconstructed
        (reconstructed_text ⟨"t", "h", "High", "v", "now", "", "7"⟩ "7")
        (reconstructed_buttons ⟨"t", "h", "High", "v", "now", "", "7"⟩ "7") ∧
    handle_back_to_alert true [] "7" = .expired :=
  ⟨(back_to_alert_precedence _ "7").1 (.alertState ⟨"ackmsg", []⟩) (by decide),
   (back_to_alert_precedence _ "7").2.1 (.alertState ⟨"origmsg", []⟩)
     (by decide) (by decide),
   (back_to_alert_precedence _ "7").2.2.1
     (.alertData ⟨"t", "h", "High", "v", "now", "", "7"⟩ none)
     (by decide) (by decide) (by decide),
   (back_to_alert_precedence _ "7").2.2.2 (by decide) (by decide) (by decide)⟩

/-! ## Claim C5 — ack then back_to_alert: banner, filtered buttons,
idempotence -/

/-- Claim C5: after an `ack` on an alert whose original message is cached,
every subsequent `back_to_alert` (any number of repetitions, which leave
the cache untouched) yields the same message — carrying the ACKNOWLEDGED
banner as its prefix — and the same filtered button set, in which every
button is an informational ai_analysis/diagnostics button and none is an
ack or ignore button. -/
theorem ack_then_back_idempotent (c : Cache) (eid u ts : String)
    (st : CachedAlertState)
    (h : cacheGet c (original_alert_key eid) = some (.alertState st))
    (hm : st.message_text ≠ "") :
    (∀ n, back_to_alert_iter true eid n
        (acknowledge_alert true .success eid u ts c).cache =
      ((acknowledge_alert true .success eid u ts c).cache,
        .ackRestored (ack_banner u ts ++ st.message_text)
          (filter_buttons st.buttons))) ∧
    pyStartsWith (ack_banner u ts ++ st.message_text) "✅ **ACKNOWLEDGED**"
      = true ∧
    (∀ row ∈ filter_buttons st.buttons, ∀ b ∈ row,
      (pyStartsWith b.callback_data "ai_analysis:" = true ∨
        pyStartsWith b.callback_data "diagnostics:" = true) ∧
      pyStartsWith b.callback_data "ack:" = false ∧
      pyStartsWith b.callback_data "ignore:" = false) := by
  refine ⟨?_, ?_, ?_⟩
  · intro n
    rw [back_iter_eq, acknowledge_alert_success_eq eid u ts c st h hm]
    simp [handle_back_to_alert, cacheGet_set_self, asAlertState]
  · apply pyStartsWith_of_data_prefix
    unfold ack_banner
    apply data_prefix_append_left
    apply data_prefix_append_left
    apply data_prefix_append_left
    apply data_prefix_append_left
    apply data_prefix_append_left
    decide
  · intro row hrow b hb
    exact keep_button_excludes_ack_ignore b (mem_filter_buttons_keep hrow hb)

/-- Witness for C5: a concrete original alert with an AI button and an Ack
button; after ack, three repetitions of back_to_alert all restore the
banner message with only the AI button left. -/
theorem ack_then_back_idempotent_witness :
    back_to_alert_iter true "9" 3
        (acknowledge_alert true .success "9" "bob" "2025-01-01 10:00:00"
          [("original_alert:9", 3600,
            .alertState ⟨"origmsg",
              [[⟨"🤖 Get AI Analysis", "ai_analysis:9"⟩,
                ⟨"✅ Acknowledge", "ack:9"⟩]]⟩)]).cache =
      ((acknowledge_alert true .success "9" "bob" "2025-01-01 10:00:00"
          [("original_alert:9", 3600,
            .alertState ⟨"origmsg",
              [[⟨"🤖 Get AI Analysis", "ai_analysis:9"⟩,
                ⟨"✅ Acknowledge", "ack:9"⟩]]⟩)]).cache,
        .ackRestored (ack_banner "bob" "2025-01-01 10:00:00" ++ "origmsg")
          (filter_buttons
            [[⟨"🤖 Get AI Analysis", "ai_analysis:9"⟩,
              ⟨"✅ Acknowledge", "ack:9"⟩]])) :=
  (ack_then_back_idempotent _ "9" "bob" "2025-01-01 10:00:00"
    ⟨"origmsg", [[⟨"🤖 Get AI Analysis", "ai_analysis:9"⟩,
                  ⟨"✅ Acknowledge", "ack:9"⟩]]⟩
    (by decide) (by decide)).1 3

/-! ## Claim C10 — ignore and ack share one variant key; last writer wins -/

/-- Claim C10: `ignore` stores its IGNORED variant under the same
`acknowledged_alert:<event id>` key `ack` uses, so for any nonempty
sequence of successful ack/ignore actions on one alert id the variant
written last overwrites the other, and a subsequent `back_to_alert`
restores whichever banner was written most recently. -/
theorem ack_ignore_last_writer_wins (c : Cache) (eid : String)
    (st : CachedAlertState) (acts : List OpAction) (a_last : OpAction)
    (h : cacheGet c (original_alert_key eid) = some (.alertState st))
    (hlast : acts.getLast? = some a_last)
    (hm : st.message_text ≠ "") :
    ignored_cache_key eid = ack_cache_key eid ∧
    handle_back_to_alert true (acts.foldl (apply_action true eid) c) eid =
      .ackRestored (variant_message st a_last) (filter_buttons st.buttons) :=
  ⟨rfl, foldl_actions_back_restores eid st acts a_last c h hlast hm⟩

/-- Witness for C10: ack then ignore on alert 9 leaves the IGNORED banner;
back_to_alert restores it. -/
theorem ack_ignore_last_writer_wins_witness :
    handle_back_to_alert true
        ([OpAction.ack "bob" "t1", OpAction.ignore "eve" "t2"].foldl
          (apply_action true "9")
          [("original_alert:9", 3600, .alertState ⟨"origmsg", []⟩)]) "9" =
      .ackRestored (variant_message ⟨"origmsg", []⟩ (.ignore "eve" "t2"))
        (filter_buttons []) :=
  (ack_ignore_last_writer_wins
    [("original_alert:9", 3600, .alertState ⟨"origmsg", []⟩)] "9"
    ⟨"origmsg", []⟩ [OpAction.ack "bob" "t1", OpAction.ignore "eve" "t2"]
    (.ignore "eve" "t2") (by decide) (by decide) (by decide)).2

/-! ## Claim C3 — suppressed alerts: no diagnostics, but buttons remain -/

theorem build_buttons_no_ai (alert : AlertEvent) :
    ∀ row ∈ build_buttons alert false, ∀ b ∈ row,
      pyStartsWith b.callback_data "ai_analysis:" = false := by
  intro row hrow b hb
  unfold build_buttons at hrow
  cases hsvc : determine_alert_type alert.trigger == "SERVICE" with
  | true =>
    simp [hsvc] at hrow
    rcases hrow with rfl | rfl | rfl
    · simp at hb
      subst hb
      exact pyStartsWith_append_false _ _ _ (by decide) (by decide)
    · simp at hb
      subst hb
      exact pyStartsWith_append_false _ _ _ (by decide) (by decide)
    · simp at hb
      rcases hb with rfl | rfl
      · exact pyStartsWith_append_false _ _ _ (by decide) (by decide)
      · exact pyStartsWith_append_false _ _ _ (by decide) (by decide)
  | false =>
    simp [hsvc] at hrow
    rcases hrow with rfl | rfl
    · simp at hb
      subst hb
      exact pyStartsWith_append_false _ _ _ (by decide) (by decide)
    · simp at hb
      rcases hb with rfl | rfl
      · exact pyStartsWith_append_false _ _ _ (by decide) (by decide)
      · exact pyStartsWith_append_false _ _ _ (by decide) (by decide)

/-- Claim C3 counterexample: the claim says a suppressed alert's notice
carries no action buttons.  For a concrete AppXSvc alert the suppression
filter matches, no diagnostic call is made and the outcome is the
successful "Alert filtered" 200 reply — but the sent notification still
carries Restart/Check/Acknowledge/Ignore action buttons (only the AI
analysis button is omitted). -/
theorem suppressed_alert_still_has_buttons :
    should_skip_alert
        ⟨"Service \"AppXSvc\" is not running", "win01", "Warning", "0",
          "10:00:00", "", "42"⟩ = true ∧
    (webhook_handler true true .timeout
        ⟨"Service \"AppXSvc\" is not running", "win01", "Warning", "0",
          "10:00:00", "", "42"⟩ []).diagnosticsRan = false ∧
    (webhook_handler true true .timeout
        ⟨"Service \"AppXSvc\" is not running", "win01", "Warning", "0",
          "10:00:00", "", "42"⟩ []).code = 200 ∧
    (webhook_handler true true .timeout
        ⟨"Service \"AppXSvc\" is not running", "win01", "Warning", "0",
          "10:00:00", "", "42"⟩ []).sent.keyboard =
      [[⟨"🔄 Restart Service", "restart_service:win01:AppXSvc"⟩],
       [⟨"📊 Check Status", "check_service:win01:AppXSvc"⟩],
       [⟨"✅ Acknowledge", "ack:42"⟩, ⟨"🔕 Ignore", "ignore:42"⟩]] := by
  refine ⟨by decide, by decide, by decide, by decide⟩

/-- Claim C3 amended: for every suppressed alert the pipeline runs no
diagnostics, replies with the terminal successful "Alert filtered" 200
outcome and sends the abbreviated notice — but the notice still carries
the standard action buttons (restart/check or diagnostics plus
acknowledge/ignore); only the AI-analysis button is withheld. -/
theorem suppressed_alert_pipeline (alert : AlertEvent) (redisUp sendOk : Bool)
    (api : HttpOutcome) (c : Cache)
    (h : should_skip_alert alert = true) :
    (webhook_handler redisUp sendOk api alert c).diagnosticsRan = false ∧
    (webhook_handler redisUp sendOk api alert c).code = 200 ∧
    (webhook_handler redisUp sendOk api alert c).body = "Alert filtered" ∧
    (webhook_handler redisUp sendOk api alert c).sent.message =
      simple_message alert ∧
    (webhook_handler redisUp sendOk api alert c).sent.keyboard =
      build_buttons alert false ∧
    ∀ row ∈ (webhook_handler redisUp sendOk api alert c).sent.keyboard,
      ∀ b ∈ row, pyStartsWith b.callback_data "ai_analysis:" = false := by
  have hk : (webhook_handler redisUp sendOk api alert c).sent.keyboard =
      build_buttons alert false := by
    cases sendOk <;> simp [webhook_handler, h, send_telegram_alert]
  refine ⟨?_, ?_, ?_, ?_, hk, ?_⟩
  · simp [webhook_handler, h]
  · simp [webhook_handler, h]
  · simp [webhook_handler, h]
  · cases sendOk <;> simp [webhook_handler, h, send_telegram_alert]
  · rw [hk]
    exact build_buttons_no_ai alert

/-- Witness for the amended C3 at a concrete suppressed alert. -/
theorem suppressed_alert_pipeline_witness :
    (webhook_handler true true .timeout
        ⟨"Free disk space is critically low on /etc/hostname", "db01", "High",
          "99", "10:00:00", "", "8"⟩ []).diagnosticsRan = false ∧
    (webhook_handler true true .timeout
        ⟨"Free disk space is critically low on /etc/hostname", "db01", "High",
          "99", "10:00:00", "", "8"⟩ []).code = 200 :=
  ⟨(suppressed_alert_pipeline _ true true .timeout [] (by decide)).1,
   (suppressed_alert_pipeline _ true true .timeout [] (by decide)).2.1⟩

/-! ## Claim C9 — canonical state caching is conditional, not unconditional -/

/-- Claim C9 counterexample: the claim says the canonical original_alert
entry exists after ingestion regardless of whether the alert carries an
event id.  For a concrete alert with an empty event id the pipeline writes
no original_alert entry at all. -/
theorem no_canonical_state_without_event_id :
    should_skip_alert
        ⟨"High CPU utilization on host a1", "a1", "High", "95", "10:00:00",
          "", ""⟩ = false ∧
    countKey (webhook_handler true true .timeout
        ⟨"High CPU utilization on host a1", "a1", "High", "95", "10:00:00",
          "", ""⟩ []).cache (original_alert_key "") = 0 ∧
    cacheGet (webhook_handler true true .timeout
        ⟨"High CPU utilization on host a1", "a1", "High", "95", "10:00:00",
          "", ""⟩ []).cache (original_alert_key "") = none := by
  refine ⟨by decide, by decide, by decide⟩

/-- Claim C9 amended: when the notification send succeeds (HTTP 200), Redis
is reachable and the alert carries a non-empty event id, exactly one
canonical original_alert entry exists afterwards, written with the
strictly positive TTL 3600 — for suppressed and non-suppressed alerts
alike.  (The counterexample shows the entry is not written when one of
these conditions fails, contrary to the claim's "regardless" clause.) -/
theorem ingestion_writes_one_canonical_state (alert : AlertEvent)
    (api : HttpOutcome) (c : Cache) (h : alert.event_id ≠ "") :
    countKey (webhook_handler true true api alert c).cache
      (original_alert_key alert.event_id) = 1 ∧
    cacheTTL (webhook_handler true true api alert c).cache
      (original_alert_key alert.event_id) = some 3600 ∧
    0 < 3600 := by
  refine ⟨?_, ?_, by norm_num⟩ <;>
  · cases hskip : should_skip_alert alert <;>
      simp [webhook_handler, hskip, send_telegram_alert, h,
        cacheSet_count_one, cacheTTL_set_self]

/-- Witness for the amended C9 at a concrete non-suppressed alert with
event id 5. -/
theorem ingestion_writes_one_canonical_state_witness :
    countKey (webhook_handler true true .timeout
        ⟨"High CPU utilization on host a1", "a1", "High", "95", "10:00:00",
          "", "5"⟩ []).cache (original_alert_key "5") = 1 ∧
    cacheTTL (webhook_handler true true .timeout
        ⟨"High CPU utilization on host a1", "a1", "High", "95", "10:00:00",
          "", "5"⟩ []).cache (original_alert_key "5") = some 3600 :=
  ⟨(ingestion_writes_one_canonical_state _ .timeout [] (by decide)).1,
   (ingestion_writes_one_canonical_state _ .timeout [] (by decide)).2.1⟩

/-! ## Claim C6 — timeout handling of the diagnostic executor -/

/-- Claim C6 counterexample: the claim says an unreachable backend yields a
result with `status=failed` and an explicit Unreachable indicator.  The
client maps a connection error to `None` — no result object and no
Unreachable indicator exist anywhere in the code. -/
theorem run_diagnostics_unreachable_yields_none :
    run_diagnostics (.connectionError "Connection refused") = none := rfl

/-- Claim C6 amended: a playbook run exceeding its timeout returns
`status=failed` with the explicit timeout indicator in the error field and
never raises (the embedding is a total function over all subprocess
outcomes); the diagnostics client maps its own HTTP timeout to `None`
without raising, and the ingestion pipeline then proceeds to a successful
200 outcome with an empty diagnostic snapshot cached alongside the alert.
On an unreachable backend the client likewise returns `None`; no
Unreachable-indicator result exists. -/
theorem diagnostic_timeout_failed_no_raise (path : String) (d : Nat) :
    (run_playbook true .timedOut path d).status = "failed" ∧
    (run_playbook true .timedOut path d).error =
      some "Playbook execution timeout (5 minutes)" ∧
    pyContains ((run_playbook true .timedOut path d).error.getD "") "timeout"
      = true ∧
    run_diagnostics .timeout = none ∧
    (∀ alert c sendOk, should_skip_alert alert = false →
      (webhook_handler true sendOk .timeout alert c).code = 200 ∧
      (webhook_handler true sendOk .timeout alert c).diagnosticsRan = true ∧
      cacheGet (webhook_handler true sendOk .timeout alert c).cache
        (alert_data_key alert.event_id) = some (.alertData alert none)) := by
  have herr : (run_playbook true .timedOut path d).error.getD "" =
      "Playbook execution timeout (5 minutes)" := by simp [run_playbook]
  refine ⟨by simp [run_playbook], by simp [run_playbook],
    by rw [herr]; decide, rfl, ?_⟩
  intro alert c sendOk hskip
  refine ⟨?_, ?_, ?_⟩
  · cases sendOk <;>
      simp [webhook_handler, hskip, send_telegram_alert, run_diagnostics]
  · cases sendOk <;>
      simp [webhook_handler, hskip, send_telegram_alert, run_diagnostics]
  · cases sendOk with
    | false =>
      simp [webhook_handler, hskip, send_telegram_alert, run_diagnostics,
        cacheGet_set_self]
    | true =>
      by_cases heid : alert.event_id = ""
      · simp [webhook_handler, hskip, send_telegram_alert, run_diagnostics,
          heid, cacheGet_set_self]
      · simp [webhook_handler, hskip, send_telegram_alert, run_diagnostics,
          heid,
          cacheGet_set_ne _ _ _ _ _ (alert_data_key_ne_original_key alert.event_id),
          cacheGet_set_self]

/-- Witness for the amended C6 at concrete inputs: a timed-out playbook
run, and a non-suppressed CPU alert handled with a timed-out diagnostic
call. -/
theorem diagnostic_timeout_failed_no_raise_witness :
    (run_playbook true .timedOut "gather_system_metrics" 300).status
      = "failed" ∧
    (webhook_handler true true .timeout
        ⟨"High CPU utilization on host a1", "a1", "High", "95", "10:00:00",
          "", "5"⟩ []).code = 200 :=
  ⟨(diagnostic_timeout_failed_no_raise "gather_system_metrics" 300).1,
   ((diagnostic_timeout_failed_no_raise "gather_system_metrics" 300).2.2.2.2
      ⟨"High CPU utilization on host a1", "a1", "High", "95", "10:00:00",
        "", "5"⟩ [] true (by decide)).1⟩

/-! ## Claim C7 — token round-trip holds, fixed arity does not -/

/-- Claim C7 counterexample: the claim says each verb has a single fixed
arity across all render sites.  The ingestion pipeline renders
`restart_service` with two arguments while the post-AI-analysis keyboard
renders the same verb with three, so decoding yields tuples of different
lengths. -/
theorem restart_service_arity_mismatch :
    (⟨"🔄 Restart Service", "restart_service:web01:nginx"⟩ : Button) ∈
      (build_buttons
        ⟨"Service \"nginx\" is not running", "web01", "High", "0", "now", "",
          "123"⟩ true).flatten ∧
    (⟨"🔄 Restart Service", "restart_service:web01:unknown:123"⟩ : Button) ∈
      (ai_action_buttons "web01" "123" "service down" "analysis" []).flatten ∧
    pySplit "restart_service:web01:nginx" ':' =
      ["restart_service", "web01", "nginx"] ∧
    pySplit "restart_service:web01:unknown:123" ':' =
      ["restart_service", "web01", "unknown", "123"] ∧
    (pySplit "restart_service:web01:nginx" ':').length ≠
      (pySplit "restart_service:web01:unknown:123" ':').length := by
  refine ⟨by decide, by decide, by decide, by decide, by decide⟩

/-- Claim C7 amended: decoding an action token by splitting on `:` returns
exactly the verb/argument tuple joined at render time whenever no
component contains the delimiter, and every render site's token is such a
join of its verb and arguments — but the arity of `restart_service` is two
at ingestion and three after AI analysis (see the counterexample), so the
fixed-arity part of the claim fails. -/
theorem token_round_trip :
    (∀ verb args, ':' ∉ verb.data → (∀ a ∈ args, ':' ∉ a.data) →
      pySplit (pyJoin ':' (verb :: args)) ':' = verb :: args) ∧
    (∀ host svc, "restart_service:" ++ (host ++ (":" ++ svc)) =
      pyJoin ':' ["restart_service", host, svc]) ∧
    (∀ host svc, "check_service:" ++ (host ++ (":" ++ svc)) =
      pyJoin ':' ["check_service", host, svc]) ∧
    (∀ host, "diagnostics:" ++ host = pyJoin ':' ["diagnostics", host]) ∧
    (∀ eid, "ack:" ++ eid = pyJoin ':' ["ack", eid]) ∧
    (∀ eid, "ignore:" ++ eid = pyJoin ':' ["ignore", eid]) ∧
    (∀ eid, "ai_analysis:" ++ eid = pyJoin ':' ["ai_analysis", eid]) ∧
    (∀ host pid eid, "kill_pid:" ++ (host ++ (":" ++ (pid ++ (":" ++ eid)))) =
      pyJoin ':' ["kill_pid", host, pid, eid]) ∧
    (∀ host eid, "kill_process:" ++ (host ++ (":" ++ ("stress:" ++ eid))) =
      pyJoin ':' ["kill_process", host, "stress", eid]) ∧
    (∀ host svc eid,
      "restart_service:" ++ (host ++ (":" ++ (svc ++ (":" ++ eid)))) =
        pyJoin ':' ["restart_service", host, svc, eid]) ∧
    (∀ host eid, "check_logs:" ++ (host ++ (":" ++ eid)) =
      pyJoin ':' ["check_logs", host, eid]) ∧
    (∀ eid, "back_to_alert:" ++ eid = pyJoin ':' ["back_to_alert", eid]) := by
  refine ⟨?_, ?_, ?_, ?_, ?_, ?_, ?_, ?_, ?_, ?_, ?_, ?_⟩
  · intro verb args hv ha
    refine pySplit_pyJoin ':' (verb :: args) (by simp) ?_
    intro p hp
    rcases List.mem_cons.mp hp with rfl | hp
    · exact hv
    · exact ha p hp
  · intro host svc
    obtain ⟨h⟩ := host; obtain ⟨s⟩ := svc
    rfl
  · intro host svc
    obtain ⟨h⟩ := host; obtain ⟨s⟩ := svc
    rfl
  · intro host
    obtain ⟨h⟩ := host
    rfl
  · intro eid
    obtain ⟨e⟩ := eid
    rfl
  · intro eid
    obtain ⟨e⟩ := eid
    rfl
  · intro eid
    obtain ⟨e⟩ := eid
    rfl
  · intro host pid eid
    obtain ⟨h⟩ := host; obtain ⟨p⟩ := pid; obtain ⟨e⟩ := eid
    rfl
  · intro host eid
    obtain ⟨h⟩ := host; obtain ⟨e⟩ := eid
    rfl
  · intro host svc eid
    obtain ⟨h⟩ := host; obtain ⟨s⟩ := svc; obtain ⟨e⟩ := eid
    rfl
  · intro host eid
    obtain ⟨h⟩ := host; obtain ⟨e⟩ := eid
    rfl
  · intro eid
    obtain ⟨e⟩ := eid
    rfl

/-- Witness for the amended C7: round-tripping a concrete four-component
kill_pid token. -/
theorem token_round_trip_witness :
    pySplit (pyJoin ':' ["kill_pid", "web01", "4821", "9"]) ':' =
      ["kill_pid", "web01", "4821", "9"] :=
  token_round_trip.1 "kill_pid" ["web01", "4821", "9"] (by decide) (by decide)

end ZabbixCore
